import Mathlib

/-!
Verification of the `crsf-rs` CRSF protocol codec.

This file gives a shallow embedding of the repository's Rust sources:

* `src/src/packets/rc_channels_packed.rs` — the 16-channel 11-bit packer
  (`raw_decode` / `raw_encode`), embedded in the namespace
  `rc_channels_packed`;
* `src/src/packet/payload/device_info.rs` — the DeviceInfo payload, in the
  namespace `device_info`;
* `src/src/packet/payload/parameter_read.rs` — the ParameterRead payload, in
  the namespace `parameter_read`;
* `src/src/packet/payload/mod.rs` — the framing constructors
  (`Payload::to_raw_packet_with_sync` and
  `ExtendedPayload::to_raw_packet_with_sync`) and the `decode`/`encode`
  methods generated by the `impl_any_payload!` macro.

Machine integers are embedded as `Nat` with explicit truncation: Rust `u8`
casts become `% 256` (`u8c`), `u16` wrapping of left shifts becomes
`% 65536` (`u16c`).  Byte buffers are `List Nat` whose elements are byte
values; fixed arrays (`[u8; 22]`, `[u8; 58]`) become either structures with
one field per byte or the leading window of a `List Nat`.  Mutation is
embedded as explicit state passing and code that can panic returns
`Option` (`none` = panic).  Fallible code returns `Except CrsfError`.

Parts of the crate that the sources reference but that are not present in
the repository snapshot (`crc8.rs`, `to_array.rs`, the `RawPacket`
definition and the protocol constants) are modelled from the specification
and are marked `Modelled from the spec:` in their doc comments.
-/

namespace Crsf

/-- Rust `as u8` cast: truncation to the low 8 bits. -/
def u8c (x : Nat) : Nat := x % 256

/-- Rust `u16` wrapping (left shifts on `u16` drop bits above bit 15). -/
def u16c (x : Nat) : Nat := x % 65536

/-- The error enumeration of the crate (`CrsfError` / `Error`).  Only the
variant exercised by the embedded code is needed: `BufferError`, returned
when a decode/encode window is shorter than a payload's fixed length. -/
inductive CrsfError where
  | BufferError
deriving DecidableEq, Repr

namespace rc_channels_packed

/-- `RcChannelsPacked(pub [u16; 16])`: sixteen `u16` channel values,
one structure field per array slot. -/
structure RcChannelsPacked where
  ch0 : Nat
  ch1 : Nat
  ch2 : Nat
  ch3 : Nat
  ch4 : Nat
  ch5 : Nat
  ch6 : Nat
  ch7 : Nat
  ch8 : Nat
  ch9 : Nat
  ch10 : Nat
  ch11 : Nat
  ch12 : Nat
  ch13 : Nat
  ch14 : Nat
  ch15 : Nat
deriving DecidableEq, Repr

/-- A `[u8; 22]` packed-channel buffer, one structure field per byte. -/
structure Bytes22 where
  d0 : Nat
  d1 : Nat
  d2 : Nat
  d3 : Nat
  d4 : Nat
  d5 : Nat
  d6 : Nat
  d7 : Nat
  d8 : Nat
  d9 : Nat
  d10 : Nat
  d11 : Nat
  d12 : Nat
  d13 : Nat
  d14 : Nat
  d15 : Nat
  d16 : Nat
  d17 : Nat
  d18 : Nat
  d19 : Nat
  d20 : Nat
  d21 : Nat
deriving DecidableEq, Repr

/-- Embedding of `rc_channels_packed::raw_decode` (src lines 14–39).
Each channel starts at the 11-bit mask `0x07FF` and is `&=`-combined with
the shifted union of 2–3 source bytes; left shifts wrap at 16 bits. -/
def raw_decode (d : Bytes22) : RcChannelsPacked where
  ch0 := 2047 &&& (d.d0 ||| u16c (d.d1 <<< 8))
  ch1 := 2047 &&& (d.d1 >>> 3 ||| u16c (d.d2 <<< 5))
  ch2 := 2047 &&& (d.d2 >>> 6 ||| u16c (d.d3 <<< 2) ||| u16c (d.d4 <<< 10))
  ch3 := 2047 &&& (d.d4 >>> 1 ||| u16c (d.d5 <<< 7))
  ch4 := 2047 &&& (d.d5 >>> 4 ||| u16c (d.d6 <<< 4))
  ch5 := 2047 &&& (d.d6 >>> 7 ||| u16c (d.d7 <<< 1) ||| u16c (d.d8 <<< 9))
  ch6 := 2047 &&& (d.d8 >>> 2 ||| u16c (d.d9 <<< 6))
  ch7 := 2047 &&& (d.d9 >>> 5 ||| u16c (d.d10 <<< 3))
  ch8 := 2047 &&& (d.d11 ||| u16c (d.d12 <<< 8))
  ch9 := 2047 &&& (d.d12 >>> 3 ||| u16c (d.d13 <<< 5))
  ch10 := 2047 &&& (d.d13 >>> 6 ||| u16c (d.d14 <<< 2) ||| u16c (d.d15 <<< 10))
  ch11 := 2047 &&& (d.d15 >>> 1 ||| u16c (d.d16 <<< 7))
  ch12 := 2047 &&& (d.d16 >>> 4 ||| u16c (d.d17 <<< 4))
  ch13 := 2047 &&& (d.d17 >>> 7 ||| u16c (d.d18 <<< 1) ||| u16c (d.d19 <<< 9))
  ch14 := 2047 &&& (d.d19 >>> 2 ||| u16c (d.d20 <<< 6))
  ch15 := 2047 &&& (d.d20 >>> 5 ||| u16c (d.d21 <<< 3))

/-- Embedding of `rc_channels_packed::raw_encode` (src lines 42–67).
Every output byte is the `as u8` truncation of a shifted union of channel
values; left shifts wrap at 16 bits. -/
def raw_encode (c : RcChannelsPacked) : Bytes22 where
  d0 := u8c c.ch0
  d1 := u8c (c.ch0 >>> 8 ||| u16c (c.ch1 <<< 3))
  d2 := u8c (c.ch1 >>> 5 ||| u16c (c.ch2 <<< 6))
  d3 := u8c (c.ch2 >>> 2)
  d4 := u8c (c.ch2 >>> 10 ||| u16c (c.ch3 <<< 1))
  d5 := u8c (c.ch3 >>> 7 ||| u16c (c.ch4 <<< 4))
  d6 := u8c (c.ch4 >>> 4 ||| u16c (c.ch5 <<< 7))
  d7 := u8c (c.ch5 >>> 1)
  d8 := u8c (c.ch5 >>> 9 ||| u16c (c.ch6 <<< 2))
  d9 := u8c (c.ch6 >>> 6 ||| u16c (c.ch7 <<< 5))
  d10 := u8c (c.ch7 >>> 3)
  d11 := u8c c.ch8
  d12 := u8c (c.ch8 >>> 8 ||| u16c (c.ch9 <<< 3))
  d13 := u8c (c.ch9 >>> 5 ||| u16c (c.ch10 <<< 6))
  d14 := u8c (c.ch10 >>> 2)
  d15 := u8c (c.ch10 >>> 10 ||| u16c (c.ch11 <<< 1))
  d16 := u8c (c.ch11 >>> 7 ||| u16c (c.ch12 <<< 4))
  d17 := u8c (c.ch12 >>> 4 ||| u16c (c.ch13 <<< 7))
  d18 := u8c (c.ch13 >>> 1)
  d19 := u8c (c.ch13 >>> 9 ||| u16c (c.ch14 <<< 2))
  d20 := u8c (c.ch14 >>> 6 ||| u16c (c.ch15 <<< 5))
  d21 := u8c (c.ch15 >>> 3)

/-- All sixteen channel values lie in the 11-bit range `[0, 2047]`. -/
def InRange11 (c : RcChannelsPacked) : Prop :=
  c.ch0 ≤ 2047 ∧ c.ch1 ≤ 2047 ∧ c.ch2 ≤ 2047 ∧ c.ch3 ≤ 2047 ∧
  c.ch4 ≤ 2047 ∧ c.ch5 ≤ 2047 ∧ c.ch6 ≤ 2047 ∧ c.ch7 ≤ 2047 ∧
  c.ch8 ≤ 2047 ∧ c.ch9 ≤ 2047 ∧ c.ch10 ≤ 2047 ∧ c.ch11 ≤ 2047 ∧
  c.ch12 ≤ 2047 ∧ c.ch13 ≤ 2047 ∧ c.ch14 ≤ 2047 ∧ c.ch15 ≤ 2047

instance (c : RcChannelsPacked) : Decidable (InRange11 c) := by
  unfold InRange11
  infer_instance

end rc_channels_packed

section Buffers

/-- Byte at index `i` of a buffer (out-of-range reads default to `0`; every
use is guarded so that only in-range indices are observed). -/
def byteAt (l : List Nat) (i : Nat) : Nat := l.getD i 0

end Buffers


/-- Modelled from the spec: the protocol-fixed maximum frame size
(`CRSF_MAX_LEN`); "tens of bytes, bounded well under 256".  The CRSF
maximum frame size is 64 bytes. -/
def CRSF_MAX_LEN : Nat := 64

/-- Modelled from the spec: the fixed protocol sync marker
(`CRSF_SYNC_BYTE`). -/
def CRSF_SYNC_BYTE : Nat := 0xC8

/-- Modelled from the spec: `RawPacket` is an exclusively-owned fixed-size
byte buffer (`buf: [u8; CRSF_MAX_LEN]`) plus a logical length (`len`). -/
structure RawPacket where
  buf : List Nat
  len : Nat
deriving DecidableEq, Repr

/-- Modelled from the spec: the checksum accumulator (`Crc8`), a value type
holding the 8-bit running state; reset per frame. -/
structure Crc8 where
  crc : Nat
deriving DecidableEq, Repr

/-- Modelled from the spec: one bit-step of the table-driven CRC-8
(polynomial `0xD5`, the CRSF polynomial). -/
def crc8_step (c : Nat) : Nat :=
  if c &&& 128 = 0 then (c <<< 1) % 256 else ((c <<< 1) ^^^ 0xD5) % 256

/-- Modelled from the spec: folding one byte into the CRC-8 accumulator
(xor, then eight polynomial steps — the byte-wise table entry). -/
def crc8_update (c b : Nat) : Nat := crc8_step^[8] (c ^^^ b)

/-- Modelled from the spec: `Crc8::new()` resets the accumulator. -/
def Crc8.new : Crc8 := ⟨0⟩

/-- Modelled from the spec: `Crc8::compute` accumulates a byte range into
the running state. -/
def Crc8.compute (s : Crc8) (data : List Nat) : Crc8 :=
  ⟨data.foldl crc8_update s.crc⟩

/-- Modelled from the spec: `Crc8::get_checksum` reads the accumulator. -/
def Crc8.get_checksum (s : Crc8) : Nat := s.crc

namespace Payload

/-- Embedding of `Payload::to_raw_packet_with_sync` (payload/mod.rs lines
58–95), generic over the payload via its fixed length `LEN`, its type tag
`typ` and its `encode` method `enc` (state-passing image of the in-place
encode of the window `raw.buf[3..]`; `?` propagates its error).
`raw.buf.get_mut(3..)` is always in bounds for the 64-byte buffer.  The
checksum slice `raw.buf.get(2..3 + LEN)` and the checksum cell
`raw.buf.get_mut(3 + LEN)` carry their Rust bounds checks: out of bounds,
the corresponding step is skipped (the `debug_assert!` arms). -/
def to_raw_packet_with_sync (LEN typ : Nat)
    (enc : List Nat → Except CrsfError (List Nat)) (sync_byte : Nat) :
    Except CrsfError RawPacket :=
  let buf0 : List Nat := List.replicate CRSF_MAX_LEN 0
  match enc (buf0.drop 3) with
  | .error e => .error e
  | .ok w =>
    let buf1 := buf0.take 3 ++ w
    let buf2 := ((buf1.set 0 sync_byte).set 1 ((2 + LEN % 256) % 256)).set 2 typ
    let crc := if 3 + LEN ≤ CRSF_MAX_LEN then
        Crc8.compute Crc8.new ((buf2.drop 2).take (1 + LEN))
      else Crc8.new
    let buf3 := if 3 + LEN < CRSF_MAX_LEN then
        buf2.set (3 + LEN) (Crc8.get_checksum crc)
      else buf2
    .ok { buf := buf3, len := 4 + LEN }

end Payload

namespace ExtendedPayload

/-- Embedding of `ExtendedPayload::to_raw_packet_with_sync`
(payload/mod.rs lines 109–153): as the simple constructor but with the
payload window at `raw.buf[5..]`, destination and source address bytes at
offsets 3 and 4, length field `4 + LEN`, and the checksum over
`raw.buf[2..5 + LEN]` written at offset `5 + LEN`. -/
def to_raw_packet_with_sync (LEN typ : Nat)
    (enc : List Nat → Except CrsfError (List Nat)) (sync_byte dst src : Nat) :
    Except CrsfError RawPacket :=
  let buf0 : List Nat := List.replicate CRSF_MAX_LEN 0
  match enc (buf0.drop 5) with
  | .error e => .error e
  | .ok w =>
    let buf1 := buf0.take 5 ++ w
    let buf2 := ((((buf1.set 0 sync_byte).set 1 ((4 + LEN % 256) % 256)).set 2 typ).set 3
      dst).set 4 src
    let crc := if 5 + LEN ≤ CRSF_MAX_LEN then
        Crc8.compute Crc8.new ((buf2.drop 2).take (3 + LEN))
      else Crc8.new
    let buf3 := if 5 + LEN < CRSF_MAX_LEN then
        buf2.set (5 + LEN) (Crc8.get_checksum crc)
      else buf2
    .ok { buf := buf3, len := 6 + LEN }

end ExtendedPayload

/-- Modelled from the spec: `to_array::ref_array_start` (the `to_array`
module is not in the snapshot).  From its use sites and §4.3 of the spec it
views the first `LEN` bytes of a slice as a `&[u8; LEN]`, failing when the
slice is shorter than the fixed length. -/
def ref_array_start (LEN : Nat) (buf : List Nat) : Option (List Nat) :=
  if LEN ≤ buf.length then some (buf.take LEN) else none

/-- Modelled from the spec: `to_array::mut_array_start`, the mutable
counterpart of `ref_array_start`. -/
def mut_array_start (LEN : Nat) (buf : List Nat) : Option (List Nat) :=
  if LEN ≤ buf.length then some (buf.take LEN) else none

namespace rc_channels_packed

/-- View of a 22-byte window as the `[u8; 22]` array structure. -/
def toBytes22 (l : List Nat) : Bytes22 :=
  ⟨byteAt l 0, byteAt l 1, byteAt l 2, byteAt l 3, byteAt l 4, byteAt l 5, byteAt l 6,
   byteAt l 7, byteAt l 8, byteAt l 9, byteAt l 10, byteAt l 11, byteAt l 12, byteAt l 13,
   byteAt l 14, byteAt l 15, byteAt l 16, byteAt l 17, byteAt l 18, byteAt l 19,
   byteAt l 20, byteAt l 21⟩

/-- The `[u8; 22]` array structure as a byte list. -/
def ofBytes22 (b : Bytes22) : List Nat :=
  [b.d0, b.d1, b.d2, b.d3, b.d4, b.d5, b.d6, b.d7, b.d8, b.d9, b.d10, b.d11, b.d12,
   b.d13, b.d14, b.d15, b.d16, b.d17, b.d18, b.d19, b.d20, b.d21]

/-- Embedding of `RcChannelsPacked::decode` (rc_channels_packed.rs lines
76–80): view the first 22 bytes, else `BufferError`. -/
def RcChannelsPacked.decode (buf : List Nat) : Except CrsfError RcChannelsPacked :=
  match ref_array_start 22 buf with
  | none => .error CrsfError.BufferError
  | some d => .ok (raw_decode (toBytes22 d))

/-- Embedding of `RcChannelsPacked::encode` (rc_channels_packed.rs lines
82–88): mutate the first 22 bytes of the window, else `BufferError`.  The
result is the whole mutated window (state-passing image of the in-place
mutation). -/
def RcChannelsPacked.encode (c : RcChannelsPacked) (buf : List Nat) :
    Except CrsfError (List Nat) :=
  match mut_array_start 22 buf with
  | none => .error CrsfError.BufferError
  | some _ => .ok (ofBytes22 (raw_encode c) ++ buf.drop 22)

end rc_channels_packed

namespace parameter_read

/-- `ParameterRead` payload length (parameter_read.rs line 4). -/
def LEN : Nat := 2

/-- Represents a ParameterRead packet (parameter_read.rs lines 9–12). -/
structure ParameterRead where
  field : Nat
  chunk : Nat
deriving DecidableEq, Repr

/-- Embedding of `parameter_read::raw_decode` (lines 15–20). -/
def raw_decode (data : List Nat) : ParameterRead :=
  { field := byteAt data 0, chunk := byteAt data 1 }

/-- Embedding of `parameter_read::raw_encode` (lines 23–26): writes the two
fields into the first two bytes of the window. -/
def raw_encode (device_ping : ParameterRead) (data : List Nat) : List Nat :=
  (data.set 0 device_ping.field).set 1 device_ping.chunk

/-- `ParameterRead::decode`, as generated by the `impl_any_payload!` macro
(payload/mod.rs lines 165–169). -/
def ParameterRead.decode (buf : List Nat) : Except CrsfError ParameterRead :=
  match ref_array_start LEN buf with
  | none => .error CrsfError.BufferError
  | some d => .ok (raw_decode d)

/-- `ParameterRead::encode`, as generated by the `impl_any_payload!` macro
(payload/mod.rs lines 171–176). -/
def ParameterRead.encode (p : ParameterRead) (buf : List Nat) :
    Except CrsfError (List Nat) :=
  match mut_array_start LEN buf with
  | none => .error CrsfError.BufferError
  | some _ => .ok (raw_encode p (buf.take LEN) ++ buf.drop LEN)

end parameter_read

namespace device_info

/-- `DeviceInfo` payload length (device_info.rs line 4). -/
def LEN : Nat := 58

/-- Maximum device-name length (device_info.rs line 6). -/
def DEVICE_NAME_MAX_LEN : Nat := 44

/-- Represents a DeviceInfo packet (device_info.rs lines 11–18); the
`&'static str` display name is embedded as its UTF-8 byte list. -/
structure DeviceInfo where
  display_name : List Nat
  serial_number : Nat
  hardware_version : Nat
  software_version : Nat
  parameter_count : Nat
  parameter_protocol_version : Nat
deriving DecidableEq, Repr

/-- A UTF-8 continuation byte (`0x80..=0xBF`). -/
def utf8_cont (b : Nat) : Bool := 128 ≤ b && b ≤ 191

/-- RFC 3629 UTF-8 validity of a byte list, as checked by
`core::str::from_utf8`. -/
def utf8_valid : List Nat → Bool
  | [] => true
  | b :: rest =>
    if b ≤ 127 then utf8_valid rest
    else
      match rest with
      | [] => false
      | b1 :: r1 =>
        if 194 ≤ b && b ≤ 223 then utf8_cont b1 && utf8_valid r1
        else
          match r1 with
          | [] => false
          | b2 :: r2 =>
            if b = 224 then (160 ≤ b1 && b1 ≤ 191) && utf8_cont b2 && utf8_valid r2
            else if (225 ≤ b && b ≤ 236) || b = 238 || b = 239 then
              utf8_cont b1 && utf8_cont b2 && utf8_valid r2
            else if b = 237 then (128 ≤ b1 && b1 ≤ 159) && utf8_cont b2 && utf8_valid r2
            else
              match r2 with
              | [] => false
              | b3 :: r3 =>
                if b = 240 then
                  (144 ≤ b1 && b1 ≤ 191) && utf8_cont b2 && utf8_cont b3 && utf8_valid r3
                else if 241 ≤ b && b ≤ 243 then
                  utf8_cont b1 && utf8_cont b2 && utf8_cont b3 && utf8_valid r3
                else if b = 244 then
                  (128 ≤ b1 && b1 ≤ 143) && utf8_cont b2 && utf8_cont b3 && utf8_valid r3
                else false

/-- The copy loop of `device_info::raw_decode` (lines 22–28): iterate `rem`
further indices starting at `i`; stop at a NUL byte, otherwise write
`data[i]` into `name_bytes[i]`.  An out-of-bounds write is a Rust panic,
embedded as `none`.  The source initializes `name_bytes` to the zero-length
slice `&mut []`, so any write panics. -/
def raw_decode_loop (data : List Nat) : Nat → Nat → List Nat → Option (List Nat)
  | _, 0, name_bytes => some name_bytes
  | i, rem + 1, name_bytes =>
    if byteAt data i = 0 then some name_bytes
    else if i < name_bytes.length then
      raw_decode_loop data (i + 1) rem (name_bytes.set i (byteAt data i))
    else none

/-- Embedding of `device_info::raw_decode` (lines 21–38).  `none` models a
panic: either the out-of-bounds write in the copy loop or the
`from_utf8(..).unwrap()`.  All numeric fields are populated with `0`, as in
the source. -/
def raw_decode (data : List Nat) : Option DeviceInfo :=
  match raw_decode_loop data 0 DEVICE_NAME_MAX_LEN [] with
  | none => none
  | some name_bytes =>
    if utf8_valid name_bytes then
      some { display_name := name_bytes, serial_number := 0, hardware_version := 0,
             software_version := 0, parameter_count := 0, parameter_protocol_version := 0 }
    else none

/-- Embedding of `device_info::raw_encode` (line 41): the body is empty, so
the window is returned unchanged. -/
def raw_encode (packet : DeviceInfo) (data : List Nat) : List Nat := data

/-- `DeviceInfo::decode`, as generated by the `impl_any_payload!` macro;
the outer `Option` models the panic inside `raw_decode`. -/
def DeviceInfo.decode (buf : List Nat) : Option (Except CrsfError DeviceInfo) :=
  match ref_array_start LEN buf with
  | none => some (.error CrsfError.BufferError)
  | some d => (raw_decode d).map Except.ok

/-- `DeviceInfo::encode`, as generated by the `impl_any_payload!` macro. -/
def DeviceInfo.encode (p : DeviceInfo) (buf : List Nat) :
    Except CrsfError (List Nat) :=
  match mut_array_start LEN buf with
  | none => .error CrsfError.BufferError
  | some _ => .ok (raw_encode p (buf.take LEN) ++ buf.drop LEN)

end device_info
section BitArith

/-- Disjoint bitwise-or is addition: if `x` fits in the low `k` bits, then
or-ing it with a multiple of `2 ^ k` is addition. -/
theorem lor_pow (k x y : Nat) (h : x < 2 ^ k) : x ||| y * 2 ^ k = x + y * 2 ^ k := by
  apply Nat.eq_of_testBit_eq
  intro i
  have hadd : x + y * 2 ^ k = 2 ^ k * y + x := by ring
  rw [hadd, Nat.testBit_mul_pow_two_add y h i, Nat.testBit_lor]
  have hmul : y * 2 ^ k = 2 ^ k * y := by ring
  rw [hmul, Nat.testBit_mul_pow_two]
  by_cases hik : i < k
  · have hge : ¬ (i ≥ k) := by omega
    simp [hik, hge]
  · have hx : x.testBit i = false := by
      apply Nat.testBit_lt_two_pow
      calc x < 2 ^ k := h
        _ ≤ 2 ^ i := Nat.pow_le_pow_right (by omega) (by omega)
    have hge : i ≥ k := by omega
    simp [hik, hge, hx]

/-- Variant of `lor_pow` stated with the power as an explicit numeral. -/
theorem lor_add_pow {x c : Nat} (y k : Nat) (hc : 2 ^ k = c) (h : x < c) :
    x ||| y * c = x + y * c := by
  subst hc
  exact lor_pow k x y h

/-- Masking with the 11-bit mask `0x07FF` is reduction modulo `2048`. -/
theorem and2047 (x : Nat) : 2047 &&& x = x % 2048 := by
  rw [Nat.and_comm]
  have h := Nat.and_pow_two_sub_one_eq_mod x 11
  norm_num at h
  exact h

/-- Masking with the 11-bit mask on the right is reduction modulo `2048`. -/
theorem and2047r (x : Nat) : x &&& 2047 = x % 2048 := by
  rw [Nat.and_comm]
  exact and2047 x

end BitArith

section BufferLemmas

theorem byteAt_set_self {l : List Nat} {i : Nat} (h : i < l.length) (v : Nat) :
    byteAt (l.set i v) i = v := by
  simp [byteAt, List.getD_eq_getElem?_getD, List.getElem?_set_self h]

theorem byteAt_set_ne {l : List Nat} {i j : Nat} (h : i ≠ j) (v : Nat) :
    byteAt (l.set i v) j = byteAt l j := by
  simp [byteAt, List.getD_eq_getElem?_getD, List.getElem?_set_ne h]

theorem byteAt_append_right {l₁ l₂ : List Nat} {i : Nat} (h : l₁.length ≤ i) :
    byteAt (l₁ ++ l₂) i = byteAt l₂ (i - l₁.length) := by
  simp [byteAt, List.getD_eq_getElem?_getD, List.getElem?_append_right h]

theorem byteAt_take {l : List Nat} {n i : Nat} (h : i < n) :
    byteAt (l.take n) i = byteAt l i := by
  simp [byteAt, List.getD_eq_getElem?_getD, List.getElem?_take, h]

theorem drop_set_low {l : List Nat} {j n : Nat} (h : j < n) (v : Nat) :
    (l.set j v).drop n = l.drop n := by
  rw [List.drop_set]
  simp [h]

theorem drop_set_high {l : List Nat} {j n : Nat} (h : n ≤ j) (v : Nat) :
    (l.set j v).drop n = (l.drop n).set (j - n) v := by
  rw [List.drop_set]
  simp [Nat.not_lt.mpr h]

theorem take_set_high {l : List Nat} {j n : Nat} (h : n ≤ j) (v : Nat) :
    (l.set j v).take n = l.take n := by
  rw [List.set_take]
  apply List.set_eq_of_length_le
  calc (l.take n).length ≤ n := by simp [List.length_take]
    _ ≤ j := h

end BufferLemmas

namespace rc_channels_packed

/-- Round-trip of the channel occupying bit offset 0 of an 11-bit pair
(channels 0 and 8): decoding bytes 0–1 (resp. 11–12) recovers the value. -/
theorem slot0 (a b : Nat) (ha : a < 2048) (hb : b < 2048) :
    2047 &&& (u8c a ||| u16c (u8c (a >>> 8 ||| u16c (b <<< 3)) <<< 8)) = a := by
  simp only [u8c, u16c, Nat.shiftLeft_eq, Nat.shiftRight_eq_div_pow]
  norm_num
  have h1 : b * 8 % 65536 = b * 8 := Nat.mod_eq_of_lt (by omega)
  rw [h1]
  have h2 : a / 256 ||| b * 8 = a / 256 + b * 8 :=
    lor_add_pow _ 3 (by norm_num) (by omega)
  rw [h2]
  have h3 : (a / 256 + b * 8) % 256 * 256 % 65536 = (a / 256 + b * 8) % 256 * 256 :=
    Nat.mod_eq_of_lt (by omega)
  rw [h3]
  have h4 : a % 256 ||| (a / 256 + b * 8) % 256 * 256 =
      a % 256 + (a / 256 + b * 8) % 256 * 256 :=
    lor_add_pow _ 8 (by norm_num) (by omega)
  rw [h4, and2047]
  omega

/-- Round-trip of the channel at bit offset 11 (channels 1 and 9). -/
theorem slot1 (a b c : Nat) (ha : a < 2048) (hb : b < 2048) :
    2047 &&& (u8c (a >>> 8 ||| u16c (b <<< 3)) >>> 3 |||
      u16c (u8c (b >>> 5 ||| u16c (c <<< 6)) <<< 5)) = b := by
  simp only [u8c, u16c, Nat.shiftLeft_eq, Nat.shiftRight_eq_div_pow]
  norm_num
  have h1 : b * 8 % 65536 = b * 8 := Nat.mod_eq_of_lt (by omega)
  rw [h1]
  have h2 : a / 256 ||| b * 8 = a / 256 + b * 8 :=
    lor_add_pow _ 3 (by norm_num) (by omega)
  rw [h2]
  have h3 : c * 64 % 65536 = c % 1024 * 64 := by
    rw [show (65536 : Nat) = 1024 * 64 by norm_num, Nat.mul_mod_mul_right]
  rw [h3]
  have h4 : b / 32 ||| c % 1024 * 64 = b / 32 + c % 1024 * 64 :=
    lor_add_pow _ 6 (by norm_num) (by omega)
  rw [h4]
  have h5 : (b / 32 + c % 1024 * 64) % 256 * 32 % 65536 = (b / 32 + c % 1024 * 64) % 256 * 32 :=
    Nat.mod_eq_of_lt (by omega)
  rw [h5]
  have h6 : (a / 256 + b * 8) % 256 / 8 ||| (b / 32 + c % 1024 * 64) % 256 * 32 =
      (a / 256 + b * 8) % 256 / 8 + (b / 32 + c % 1024 * 64) % 256 * 32 :=
    lor_add_pow _ 5 (by norm_num) (by omega)
  rw [h6, and2047]
  omega

/-- Round-trip of the channel at bit offset 22 (channels 2 and 10), which
spans three bytes. -/
theorem slot2 (b c d : Nat) (hb : b < 2048) (hc : c < 2048) (hd : d < 2048) :
    2047 &&& (u8c (b >>> 5 ||| u16c (c <<< 6)) >>> 6 ||| u16c (u8c (c >>> 2) <<< 2) |||
      u16c (u8c (c >>> 10 ||| u16c (d <<< 1)) <<< 10)) = c := by
  simp only [u8c, u16c, Nat.shiftLeft_eq, Nat.shiftRight_eq_div_pow]
  norm_num
  have h1 : c * 64 % 65536 = c % 1024 * 64 := by
    rw [show (65536 : Nat) = 1024 * 64 by norm_num, Nat.mul_mod_mul_right]
  rw [h1]
  have h2 : b / 32 ||| c % 1024 * 64 = b / 32 + c % 1024 * 64 :=
    lor_add_pow _ 6 (by norm_num) (by omega)
  rw [h2]
  have h3 : d * 2 % 65536 = d * 2 := Nat.mod_eq_of_lt (by omega)
  rw [h3]
  have h4 : c / 1024 ||| d * 2 = c / 1024 + d * 2 :=
    lor_add_pow _ 1 (by norm_num) (by omega)
  rw [h4]
  have h5 : c / 4 % 256 * 4 % 65536 = c / 4 % 256 * 4 := Nat.mod_eq_of_lt (by omega)
  rw [h5]
  have h6 : (c / 1024 + d * 2) % 256 * 1024 % 65536 = (c / 1024 + d * 2) % 256 % 64 * 1024 := by
    rw [show (65536 : Nat) = 64 * 1024 by norm_num, Nat.mul_mod_mul_right]
  rw [h6]
  have h7 : (b / 32 + c % 1024 * 64) % 256 / 64 ||| c / 4 % 256 * 4 =
      (b / 32 + c % 1024 * 64) % 256 / 64 + c / 4 % 256 * 4 :=
    lor_add_pow _ 2 (by norm_num) (by omega)
  rw [h7]
  have h8 : (b / 32 + c % 1024 * 64) % 256 / 64 + c / 4 % 256 * 4 |||
      (c / 1024 + d * 2) % 256 % 64 * 1024 =
      (b / 32 + c % 1024 * 64) % 256 / 64 + c / 4 % 256 * 4 +
      (c / 1024 + d * 2) % 256 % 64 * 1024 :=
    lor_add_pow _ 10 (by norm_num) (by omega)
  rw [h8, and2047]
  omega

/-- Round-trip of the channel at bit offset 33 (channels 3 and 11). -/
theorem slot3 (c d e : Nat) (hc : c < 2048) (hd : d < 2048) (he : e < 2048) :
    2047 &&& (u8c (c >>> 10 ||| u16c (d <<< 1)) >>> 1 |||
      u16c (u8c (d >>> 7 ||| u16c (e <<< 4)) <<< 7)) = d := by
  simp only [u8c, u16c, Nat.shiftLeft_eq, Nat.shiftRight_eq_div_pow]
  norm_num
  have h1 : d * 2 % 65536 = d * 2 := Nat.mod_eq_of_lt (by omega)
  rw [h1]
  have h2 : c / 1024 ||| d * 2 = c / 1024 + d * 2 :=
    lor_add_pow _ 1 (by norm_num) (by omega)
  rw [h2]
  have h3 : e * 16 % 65536 = e * 16 := Nat.mod_eq_of_lt (by omega)
  rw [h3]
  have h4 : d / 128 ||| e * 16 = d / 128 + e * 16 :=
    lor_add_pow _ 4 (by norm_num) (by omega)
  rw [h4]
  have h5 : (d / 128 + e * 16) % 256 * 128 % 65536 = (d / 128 + e * 16) % 256 * 128 :=
    Nat.mod_eq_of_lt (by omega)
  rw [h5]
  have h6 : (c / 1024 + d * 2) % 256 / 2 ||| (d / 128 + e * 16) % 256 * 128 =
      (c / 1024 + d * 2) % 256 / 2 + (d / 128 + e * 16) % 256 * 128 :=
    lor_add_pow _ 7 (by norm_num) (by omega)
  rw [h6, and2047]
  omega

/-- Round-trip of the channel at bit offset 44 (channels 4 and 12). -/
theorem slot4 (d e f : Nat) (hd : d < 2048) (he : e < 2048) :
    2047 &&& (u8c (d >>> 7 ||| u16c (e <<< 4)) >>> 4 |||
      u16c (u8c (e >>> 4 ||| u16c (f <<< 7)) <<< 4)) = e := by
  simp only [u8c, u16c, Nat.shiftLeft_eq, Nat.shiftRight_eq_div_pow]
  norm_num
  have h1 : e * 16 % 65536 = e * 16 := Nat.mod_eq_of_lt (by omega)
  rw [h1]
  have h2 : d / 128 ||| e * 16 = d / 128 + e * 16 :=
    lor_add_pow _ 4 (by norm_num) (by omega)
  rw [h2]
  have h3 : f * 128 % 65536 = f % 512 * 128 := by
    rw [show (65536 : Nat) = 512 * 128 by norm_num, Nat.mul_mod_mul_right]
  rw [h3]
  have h4 : e / 16 ||| f % 512 * 128 = e / 16 + f % 512 * 128 :=
    lor_add_pow _ 7 (by norm_num) (by omega)
  rw [h4]
  have h5 : (e / 16 + f % 512 * 128) % 256 * 16 % 65536 = (e / 16 + f % 512 * 128) % 256 * 16 :=
    Nat.mod_eq_of_lt (by omega)
  rw [h5]
  have h6 : (d / 128 + e * 16) % 256 / 16 ||| (e / 16 + f % 512 * 128) % 256 * 16 =
      (d / 128 + e * 16) % 256 / 16 + (e / 16 + f % 512 * 128) % 256 * 16 :=
    lor_add_pow _ 4 (by norm_num) (by omega)
  rw [h6, and2047]
  omega

/-- Round-trip of the channel at bit offset 55 (channels 5 and 13), which
spans three bytes. -/
theorem slot5 (e f g : Nat) (he : e < 2048) (hf : f < 2048) (hg : g < 2048) :
    2047 &&& (u8c (e >>> 4 ||| u16c (f <<< 7)) >>> 7 ||| u16c (u8c (f >>> 1) <<< 1) |||
      u16c (u8c (f >>> 9 ||| u16c (g <<< 2)) <<< 9)) = f := by
  simp only [u8c, u16c, Nat.shiftLeft_eq, Nat.shiftRight_eq_div_pow]
  norm_num
  have h1 : f * 128 % 65536 = f % 512 * 128 := by
    rw [show (65536 : Nat) = 512 * 128 by norm_num, Nat.mul_mod_mul_right]
  rw [h1]
  have h2 : e / 16 ||| f % 512 * 128 = e / 16 + f % 512 * 128 :=
    lor_add_pow _ 7 (by norm_num) (by omega)
  rw [h2]
  have h3 : f / 2 % 256 * 2 % 65536 = f / 2 % 256 * 2 := Nat.mod_eq_of_lt (by omega)
  rw [h3]
  have h4 : g * 4 % 65536 = g * 4 := Nat.mod_eq_of_lt (by omega)
  rw [h4]
  have h5 : f / 512 ||| g * 4 = f / 512 + g * 4 :=
    lor_add_pow _ 2 (by norm_num) (by omega)
  rw [h5]
  have h6 : (f / 512 + g * 4) % 256 * 512 % 65536 = (f / 512 + g * 4) % 256 % 128 * 512 := by
    rw [show (65536 : Nat) = 128 * 512 by norm_num, Nat.mul_mod_mul_right]
  rw [h6]
  have h7 : (e / 16 + f % 512 * 128) % 256 / 128 ||| f / 2 % 256 * 2 =
      (e / 16 + f % 512 * 128) % 256 / 128 + f / 2 % 256 * 2 :=
    lor_add_pow _ 1 (by norm_num) (by omega)
  rw [h7]
  have h8 : (e / 16 + f % 512 * 128) % 256 / 128 + f / 2 % 256 * 2 |||
      (f / 512 + g * 4) % 256 % 128 * 512 =
      (e / 16 + f % 512 * 128) % 256 / 128 + f / 2 % 256 * 2 +
      (f / 512 + g * 4) % 256 % 128 * 512 :=
    lor_add_pow _ 9 (by norm_num) (by omega)
  rw [h8, and2047]
  omega

/-- Round-trip of the channel at bit offset 66 (channels 6 and 14). -/
theorem slot6 (f g h : Nat) (hf : f < 2048) (hg : g < 2048) (hh : h < 2048) :
    2047 &&& (u8c (f >>> 9 ||| u16c (g <<< 2)) >>> 2 |||
      u16c (u8c (g >>> 6 ||| u16c (h <<< 5)) <<< 6)) = g := by
  simp only [u8c, u16c, Nat.shiftLeft_eq, Nat.shiftRight_eq_div_pow]
  norm_num
  have h1 : g * 4 % 65536 = g * 4 := Nat.mod_eq_of_lt (by omega)
  rw [h1]
  have h2 : f / 512 ||| g * 4 = f / 512 + g * 4 :=
    lor_add_pow _ 2 (by norm_num) (by omega)
  rw [h2]
  have h3 : h * 32 % 65536 = h * 32 := Nat.mod_eq_of_lt (by omega)
  rw [h3]
  have h4 : g / 64 ||| h * 32 = g / 64 + h * 32 :=
    lor_add_pow _ 5 (by norm_num) (by omega)
  rw [h4]
  have h5 : (g / 64 + h * 32) % 256 * 64 % 65536 = (g / 64 + h * 32) % 256 * 64 :=
    Nat.mod_eq_of_lt (by omega)
  rw [h5]
  have h6 : (f / 512 + g * 4) % 256 / 4 ||| (g / 64 + h * 32) % 256 * 64 =
      (f / 512 + g * 4) % 256 / 4 + (g / 64 + h * 32) % 256 * 64 :=
    lor_add_pow _ 6 (by norm_num) (by omega)
  rw [h6, and2047]
  omega

/-- Round-trip of the channel at bit offset 77 (channels 7 and 15). -/
theorem slot7 (g h : Nat) (hg : g < 2048) (hh : h < 2048) :
    2047 &&& (u8c (g >>> 6 ||| u16c (h <<< 5)) >>> 5 ||| u16c (u8c (h >>> 3) <<< 3)) = h := by
  simp only [u8c, u16c, Nat.shiftLeft_eq, Nat.shiftRight_eq_div_pow]
  norm_num
  have h1 : h * 32 % 65536 = h * 32 := Nat.mod_eq_of_lt (by omega)
  rw [h1]
  have h2 : g / 64 ||| h * 32 = g / 64 + h * 32 :=
    lor_add_pow _ 5 (by norm_num) (by omega)
  rw [h2]
  have h3 : h / 8 % 256 * 8 % 65536 = h / 8 % 256 * 8 := Nat.mod_eq_of_lt (by omega)
  rw [h3]
  have h4 : (g / 64 + h * 32) % 256 / 32 ||| h / 8 % 256 * 8 =
      (g / 64 + h * 32) % 256 / 32 + h / 8 % 256 * 8 :=
    lor_add_pow _ 3 (by norm_num) (by omega)
  rw [h4, and2047]
  omega

/-- Decoding an encoded in-range channel set recovers every channel:
shared helper behind the round-trip claims. -/
theorem decode_encode_of_inRange (c : RcChannelsPacked) (h : InRange11 c) :
    raw_decode (raw_encode c) = c := by
  obtain ⟨c0, c1, c2, c3, c4, c5, c6, c7, c8, c9, c10, c11, c12, c13, c14, c15⟩ := c
  obtain ⟨h0, h1, h2, h3, h4, h5, h6, h7, h8, h9, h10, h11, h12, h13, h14, h15⟩ := h
  simp only [InRange11] at *
  simp only [raw_decode, raw_encode, RcChannelsPacked.mk.injEq]
  refine ⟨?_, ?_, ?_, ?_, ?_, ?_, ?_, ?_, ?_, ?_, ?_, ?_, ?_, ?_, ?_, ?_⟩
  · exact slot0 c0 c1 (by omega) (by omega)
  · exact slot1 c0 c1 c2 (by omega) (by omega)
  · exact slot2 c1 c2 c3 (by omega) (by omega) (by omega)
  · exact slot3 c2 c3 c4 (by omega) (by omega) (by omega)
  · exact slot4 c3 c4 c5 (by omega) (by omega)
  · exact slot5 c4 c5 c6 (by omega) (by omega) (by omega)
  · exact slot6 c5 c6 c7 (by omega) (by omega) (by omega)
  · exact slot7 c6 c7 (by omega) (by omega)
  · exact slot0 c8 c9 (by omega) (by omega)
  · exact slot1 c8 c9 c10 (by omega) (by omega)
  · exact slot2 c9 c10 c11 (by omega) (by omega) (by omega)
  · exact slot3 c10 c11 c12 (by omega) (by omega) (by omega)
  · exact slot4 c11 c12 c13 (by omega) (by omega)
  · exact slot5 c12 c13 c14 (by omega) (by omega) (by omega)
  · exact slot6 c13 c14 c15 (by omega) (by omega) (by omega)
  · exact slot7 c14 c15 (by omega) (by omega)

end rc_channels_packed


/-- C1: For every array of 16 channel values each in the range `[0, 2047]`,
unpacking the result of packing them returns the original array,
`raw_decode (raw_encode ch) = ch`, for every channel slot, over the
22-byte packed buffer. -/
theorem rc_channels_pack_roundtrip (c : rc_channels_packed.RcChannelsPacked)
    (h : rc_channels_packed.InRange11 c) :
    rc_channels_packed.raw_decode (rc_channels_packed.raw_encode c) = c :=
  rc_channels_packed.decode_encode_of_inRange c h

/-- Witness for C1 at the repository's own test vector. -/
theorem rc_channels_pack_roundtrip_witness :
    rc_channels_packed.InRange11
      ⟨983, 992, 174, 992, 191, 191, 191, 191, 997, 997, 997, 997, 0, 0, 1811, 1811⟩ ∧
    rc_channels_packed.raw_decode (rc_channels_packed.raw_encode
      ⟨983, 992, 174, 992, 191, 191, 191, 191, 997, 997, 997, 997, 0, 0, 1811, 1811⟩) =
      ⟨983, 992, 174, 992, 191, 191, 191, 191, 997, 997, 997, 997, 0, 0, 1811, 1811⟩ :=
  ⟨by decide, rc_channels_pack_roundtrip _ (by decide)⟩

/-- C10 (counterexample): the claim "packing then unpacking yields each
value truncated to its low 11 bits, for arbitrary `u16` inputs" fails at
the concrete input `ch = [0xFFFF, 0, …, 0]`: slot 1 decodes to `31`, not
`0 = ch[1] &&& 0x7FF`, because the encoder ors the high bits of `ch[0]`
into byte 1 where they collide with channel 1's low bits. -/
theorem rc_encode_truncation_cex :
    (rc_channels_packed.raw_decode (rc_channels_packed.raw_encode
      ⟨65535, 0, 0, 0, 0, 0, 0, 0, 0, 0, 0, 0, 0, 0, 0, 0⟩)).ch1 ≠
    (rc_channels_packed.RcChannelsPacked.mk
      65535 0 0 0 0 0 0 0 0 0 0 0 0 0 0 0).ch1 &&& 2047 := by
  decide

/-- C10 (amended): when every channel value is in range, packing then
unpacking yields each slot truncated to its low 11 bits (the truncation is
then the identity); out-of-range values are NOT truncated by the encoder —
their high bits spill into adjacent slots, as the counterexample shows. -/
theorem rc_encode_truncation_in_range (c : rc_channels_packed.RcChannelsPacked)
    (h : rc_channels_packed.InRange11 c) :
    (rc_channels_packed.raw_decode (rc_channels_packed.raw_encode c)).ch0 = c.ch0 &&& 2047 ∧
    (rc_channels_packed.raw_decode (rc_channels_packed.raw_encode c)).ch1 = c.ch1 &&& 2047 ∧
    (rc_channels_packed.raw_decode (rc_channels_packed.raw_encode c)).ch2 = c.ch2 &&& 2047 ∧
    (rc_channels_packed.raw_decode (rc_channels_packed.raw_encode c)).ch3 = c.ch3 &&& 2047 ∧
    (rc_channels_packed.raw_decode (rc_channels_packed.raw_encode c)).ch4 = c.ch4 &&& 2047 ∧
    (rc_channels_packed.raw_decode (rc_channels_packed.raw_encode c)).ch5 = c.ch5 &&& 2047 ∧
    (rc_channels_packed.raw_decode (rc_channels_packed.raw_encode c)).ch6 = c.ch6 &&& 2047 ∧
    (rc_channels_packed.raw_decode (rc_channels_packed.raw_encode c)).ch7 = c.ch7 &&& 2047 ∧
    (rc_channels_packed.raw_decode (rc_channels_packed.raw_encode c)).ch8 = c.ch8 &&& 2047 ∧
    (rc_channels_packed.raw_decode (rc_channels_packed.raw_encode c)).ch9 = c.ch9 &&& 2047 ∧
    (rc_channels_packed.raw_decode (rc_channels_packed.raw_encode c)).ch10 = c.ch10 &&& 2047 ∧
    (rc_channels_packed.raw_decode (rc_channels_packed.raw_encode c)).ch11 = c.ch11 &&& 2047 ∧
    (rc_channels_packed.raw_decode (rc_channels_packed.raw_encode c)).ch12 = c.ch12 &&& 2047 ∧
    (rc_channels_packed.raw_decode (rc_channels_packed.raw_encode c)).ch13 = c.ch13 &&& 2047 ∧
    (rc_channels_packed.raw_decode (rc_channels_packed.raw_encode c)).ch14 = c.ch14 &&& 2047 ∧
    (rc_channels_packed.raw_decode (rc_channels_packed.raw_encode c)).ch15 = c.ch15 &&& 2047 := by
  have hrt := rc_channels_packed.decode_encode_of_inRange c h
  obtain ⟨h0, h1, h2, h3, h4, h5, h6, h7, h8, h9, h10, h11, h12, h13, h14, h15⟩ := h
  rw [hrt]
  simp only [and2047r]
  omega

/-- Witness for C10's amended theorem at the repository's test vector. -/
theorem rc_encode_truncation_in_range_witness :
    rc_channels_packed.InRange11
      ⟨983, 992, 174, 992, 191, 191, 191, 191, 997, 997, 997, 997, 0, 0, 1811, 1811⟩ ∧
    (rc_channels_packed.raw_decode (rc_channels_packed.raw_encode
      ⟨983, 992, 174, 992, 191, 191, 191, 191, 997, 997, 997, 997, 0, 0, 1811, 1811⟩)).ch0 =
      (rc_channels_packed.RcChannelsPacked.mk
        983 992 174 992 191 191 191 191 997 997 997 997 0 0 1811 1811).ch0 &&& 2047 :=
  ⟨by decide, (rc_encode_truncation_in_range _ (by decide)).1⟩

/-- C2: the claim that the DeviceInfo payload decoder is total over every
58-byte input is contradicted by the code: whenever the first byte is
nonzero, the copy loop writes into the zero-length `name_bytes` slice and
panics (embedded as `none`).  This theorem evaluates the decoder at the
failing input `[65, 0, …, 0]`. -/
theorem device_info_decode_panics :
    device_info.raw_decode (65 :: List.replicate 57 0) = none := by
  decide

/-- C3: the claim that `decode (encode value) = value` holds for every
payload variant is contradicted by DeviceInfo: `raw_encode` has an empty
body and `raw_decode` hard-codes every numeric field to zero, so encoding
`serial_number = 1` into a zeroed window and decoding it back yields the
all-zero value, not the original. -/
theorem device_info_roundtrip_fails :
    device_info.raw_decode
      (device_info.raw_encode
        { display_name := [], serial_number := 1, hardware_version := 0,
          software_version := 0, parameter_count := 0, parameter_protocol_version := 0 }
        (List.replicate 58 0)) ≠
    some { display_name := [], serial_number := 1, hardware_version := 0,
           software_version := 0, parameter_count := 0, parameter_protocol_version := 0 } := by
  decide

/-- C9: for every input buffer, every one of the 16 channel values produced
by the packed-channels decoder is at most 2047 (masked to 11 bits), and the
decoder reads only bytes 0..21 of its input (decoding the 22-byte prefix
gives the same result). -/
theorem rc_decode_masked_and_bounded (data : List Nat) :
    ((rc_channels_packed.raw_decode (rc_channels_packed.toBytes22 data)).ch0 ≤ 2047 ∧
     (rc_channels_packed.raw_decode (rc_channels_packed.toBytes22 data)).ch1 ≤ 2047 ∧
     (rc_channels_packed.raw_decode (rc_channels_packed.toBytes22 data)).ch2 ≤ 2047 ∧
     (rc_channels_packed.raw_decode (rc_channels_packed.toBytes22 data)).ch3 ≤ 2047 ∧
     (rc_channels_packed.raw_decode (rc_channels_packed.toBytes22 data)).ch4 ≤ 2047 ∧
     (rc_channels_packed.raw_decode (rc_channels_packed.toBytes22 data)).ch5 ≤ 2047 ∧
     (rc_channels_packed.raw_decode (rc_channels_packed.toBytes22 data)).ch6 ≤ 2047 ∧
     (rc_channels_packed.raw_decode (rc_channels_packed.toBytes22 data)).ch7 ≤ 2047 ∧
     (rc_channels_packed.raw_decode (rc_channels_packed.toBytes22 data)).ch8 ≤ 2047 ∧
     (rc_channels_packed.raw_decode (rc_channels_packed.toBytes22 data)).ch9 ≤ 2047 ∧
     (rc_channels_packed.raw_decode (rc_channels_packed.toBytes22 data)).ch10 ≤ 2047 ∧
     (rc_channels_packed.raw_decode (rc_channels_packed.toBytes22 data)).ch11 ≤ 2047 ∧
     (rc_channels_packed.raw_decode (rc_channels_packed.toBytes22 data)).ch12 ≤ 2047 ∧
     (rc_channels_packed.raw_decode (rc_channels_packed.toBytes22 data)).ch13 ≤ 2047 ∧
     (rc_channels_packed.raw_decode (rc_channels_packed.toBytes22 data)).ch14 ≤ 2047 ∧
     (rc_channels_packed.raw_decode (rc_channels_packed.toBytes22 data)).ch15 ≤ 2047) ∧
    rc_channels_packed.raw_decode (rc_channels_packed.toBytes22 data) =
      rc_channels_packed.raw_decode (rc_channels_packed.toBytes22 (data.take 22)) := by
  constructor
  · simp only [rc_channels_packed.raw_decode]
    exact ⟨Nat.and_le_left, Nat.and_le_left, Nat.and_le_left, Nat.and_le_left,
      Nat.and_le_left, Nat.and_le_left, Nat.and_le_left, Nat.and_le_left,
      Nat.and_le_left, Nat.and_le_left, Nat.and_le_left, Nat.and_le_left,
      Nat.and_le_left, Nat.and_le_left, Nat.and_le_left, Nat.and_le_left⟩
  · have ht : rc_channels_packed.toBytes22 (data.take 22) =
        rc_channels_packed.toBytes22 data := by
      simp only [rc_channels_packed.toBytes22, rc_channels_packed.Bytes22.mk.injEq]
      exact ⟨byteAt_take (by omega), byteAt_take (by omega), byteAt_take (by omega),
        byteAt_take (by omega), byteAt_take (by omega), byteAt_take (by omega),
        byteAt_take (by omega), byteAt_take (by omega), byteAt_take (by omega),
        byteAt_take (by omega), byteAt_take (by omega), byteAt_take (by omega),
        byteAt_take (by omega), byteAt_take (by omega), byteAt_take (by omega),
        byteAt_take (by omega), byteAt_take (by omega), byteAt_take (by omega),
        byteAt_take (by omega), byteAt_take (by omega), byteAt_take (by omega),
        byteAt_take (by omega)⟩
    rw [ht]

/-- Viewing the first `L` bytes of a truncated buffer is viewing the first
`L` bytes of the buffer. -/
theorem ref_array_start_take (L : Nat) (buf : List Nat) :
    ref_array_start L (buf.take L) = ref_array_start L buf := by
  by_cases h : L ≤ buf.length
  · have h2 : L ≤ min L buf.length := by omega
    simp [ref_array_start, List.length_take, h, h2, List.take_take]
  · have h2 : ¬ L ≤ min L buf.length := by omega
    simp [ref_array_start, List.length_take, h, h2]

/-- C7: for every payload variant in the sources, `decode` on a byte slice
shorter than the variant's fixed encoded length returns `BufferError`
rather than panicking, and `decode` never accesses bytes beyond the
variant's fixed window (decoding the truncated buffer gives the same
result).  For DeviceInfo the short-buffer error is produced before the
decoder's panicking copy loop can run. -/
theorem payload_decode_short_buffer (buf : List Nat) :
    (buf.length < 22 →
      rc_channels_packed.RcChannelsPacked.decode buf = .error CrsfError.BufferError) ∧
    (buf.length < parameter_read.LEN →
      parameter_read.ParameterRead.decode buf = .error CrsfError.BufferError) ∧
    (buf.length < device_info.LEN →
      device_info.DeviceInfo.decode buf = some (.error CrsfError.BufferError)) ∧
    rc_channels_packed.RcChannelsPacked.decode buf =
      rc_channels_packed.RcChannelsPacked.decode (buf.take 22) ∧
    parameter_read.ParameterRead.decode buf =
      parameter_read.ParameterRead.decode (buf.take parameter_read.LEN) ∧
    device_info.DeviceInfo.decode buf =
      device_info.DeviceInfo.decode (buf.take device_info.LEN) := by
  refine ⟨?_, ?_, ?_, ?_, ?_, ?_⟩
  · intro h
    simp [rc_channels_packed.RcChannelsPacked.decode, ref_array_start,
      show ¬ 22 ≤ buf.length by omega]
  · intro h
    simp only [parameter_read.LEN] at h
    simp [parameter_read.ParameterRead.decode, parameter_read.LEN, ref_array_start,
      show ¬ 2 ≤ buf.length by omega]
  · intro h
    simp only [device_info.LEN] at h
    simp [device_info.DeviceInfo.decode, device_info.LEN, ref_array_start,
      show ¬ 58 ≤ buf.length by omega]
  · simp only [rc_channels_packed.RcChannelsPacked.decode, ref_array_start_take]
  · simp only [parameter_read.ParameterRead.decode, ref_array_start_take]
  · simp only [device_info.DeviceInfo.decode, ref_array_start_take]

/-- Witness for C7 at the empty buffer. -/
theorem payload_decode_short_buffer_witness :
    rc_channels_packed.RcChannelsPacked.decode [] = .error CrsfError.BufferError ∧
    parameter_read.ParameterRead.decode [] = .error CrsfError.BufferError ∧
    device_info.DeviceInfo.decode [] = some (.error CrsfError.BufferError) :=
  ⟨(payload_decode_short_buffer []).1 (by decide),
   (payload_decode_short_buffer []).2.1 (by decide),
   (payload_decode_short_buffer []).2.2.1 (by decide)⟩

/-- C8: if a payload's `encode` returns an error during frame
construction, both frame constructors return exactly that error and no
`RawPacket`: the `?` operator aborts before any header, address or
checksum byte of a packet is exposed to the caller. -/
theorem to_raw_packet_encode_error (LEN typ sync_byte dst src : Nat)
    (enc : List Nat → Except CrsfError (List Nat)) (e : CrsfError) :
    (enc ((List.replicate CRSF_MAX_LEN 0).drop 3) = .error e →
      Payload.to_raw_packet_with_sync LEN typ enc sync_byte = .error e) ∧
    (enc ((List.replicate CRSF_MAX_LEN 0).drop 5) = .error e →
      ExtendedPayload.to_raw_packet_with_sync LEN typ enc sync_byte dst src = .error e) := by
  constructor
  · intro h
    simp only [Payload.to_raw_packet_with_sync]
    rw [h]
  · intro h
    simp only [ExtendedPayload.to_raw_packet_with_sync]
    rw [h]

/-- Witness for C8 with an always-failing encoder. -/
theorem to_raw_packet_encode_error_witness :
    Payload.to_raw_packet_with_sync 22 22 (fun _ => .error CrsfError.BufferError) 200 =
      .error CrsfError.BufferError ∧
    ExtendedPayload.to_raw_packet_with_sync 2 44 (fun _ => .error CrsfError.BufferError)
      200 10 20 = .error CrsfError.BufferError :=
  ⟨(to_raw_packet_encode_error 22 22 200 10 20 (fun _ => .error CrsfError.BufferError)
      CrsfError.BufferError).1 rfl,
   (to_raw_packet_encode_error 2 44 200 10 20 (fun _ => .error CrsfError.BufferError)
      CrsfError.BufferError).2 rfl⟩

/-- C4: for every simple-framed payload whose encode succeeds (window image
`w`, length-preserving as Rust's in-place mutation is), the constructor
produces a frame with byte 0 the sync byte, byte 1 (the length field)
`2 + LEN`, byte 2 the type tag, the payload at bytes `3..3+LEN`, the CRC-8
over exactly bytes `2..3+LEN` at offset `3+LEN`, and total occupancy
`4 + LEN = 2 + length field`. -/
theorem simple_frame_layout (LEN typ sync_byte : Nat)
    (enc : List Nat → Except CrsfError (List Nat)) (w : List Nat)
    (hLEN : LEN ≤ 60)
    (henc : enc ((List.replicate CRSF_MAX_LEN 0).drop 3) = .ok w)
    (hw : w.length = CRSF_MAX_LEN - 3) :
    ∃ p : RawPacket,
      Payload.to_raw_packet_with_sync LEN typ enc sync_byte = .ok p ∧
      byteAt p.buf 0 = sync_byte ∧
      byteAt p.buf 1 = 2 + LEN ∧
      byteAt p.buf 2 = typ ∧
      (∀ i, i < LEN → byteAt p.buf (3 + i) = byteAt w i) ∧
      byteAt p.buf (3 + LEN) =
        Crc8.get_checksum (Crc8.compute Crc8.new ((p.buf.drop 2).take (1 + LEN))) ∧
      p.len = 4 + LEN ∧
      p.len = 2 + byteAt p.buf 1 := by
  have hw61 : w.length = 61 := by
    simp only [CRSF_MAX_LEN] at hw
    omega
  simp only [CRSF_MAX_LEN] at henc
  simp only [Payload.to_raw_packet_with_sync, CRSF_MAX_LEN, henc]
  have hlt : 3 + LEN < 64 := by omega
  have hle : 3 + LEN ≤ 64 := by omega
  rw [if_pos hlt, if_pos hle]
  have hB1 : (List.take 3 (List.replicate 64 (0 : Nat)) ++ w).length = 64 := by
    simp only [List.length_append, List.length_take, List.length_replicate, hw61]
    omega
  have hs0 : 0 < (List.take 3 (List.replicate 64 (0 : Nat)) ++ w).length := by
    omega
  have hs1 : 1 <
      ((List.take 3 (List.replicate 64 (0 : Nat)) ++ w).set 0 sync_byte).length := by
    rw [List.length_set]
    omega
  have hs2 : 2 <
      (((List.take 3 (List.replicate 64 (0 : Nat)) ++ w).set 0 sync_byte).set 1
        ((2 + LEN % 256) % 256)).length := by
    rw [List.length_set, List.length_set]
    omega
  have hs3 : 3 + LEN <
      ((((List.take 3 (List.replicate 64 (0 : Nat)) ++ w).set 0 sync_byte).set 1
        ((2 + LEN % 256) % 256)).set 2 typ).length := by
    rw [List.length_set, List.length_set, List.length_set]
    omega
  have hlen3 : (List.take 3 (List.replicate 64 (0 : Nat))).length = 3 := by
    simp
  refine ⟨_, rfl, ?_, ?_, ?_, ?_, ?_, ?_, ?_⟩
  · dsimp only
    rw [byteAt_set_ne (show 3 + LEN ≠ 0 by omega),
      byteAt_set_ne (show (2 : Nat) ≠ 0 by omega),
      byteAt_set_ne (show (1 : Nat) ≠ 0 by omega),
      byteAt_set_self hs0]
  · dsimp only
    rw [byteAt_set_ne (show 3 + LEN ≠ 1 by omega),
      byteAt_set_ne (show (2 : Nat) ≠ 1 by omega),
      byteAt_set_self hs1]
    omega
  · dsimp only
    rw [byteAt_set_ne (show 3 + LEN ≠ 2 by omega),
      byteAt_set_self hs2]
  · intro i hi
    dsimp only
    rw [byteAt_set_ne (show 3 + LEN ≠ 3 + i by omega),
      byteAt_set_ne (show (2 : Nat) ≠ 3 + i by omega),
      byteAt_set_ne (show (1 : Nat) ≠ 3 + i by omega),
      byteAt_set_ne (show (0 : Nat) ≠ 3 + i by omega),
      byteAt_append_right (by rw [hlen3]; omega), hlen3]
    congr 1
    omega
  · dsimp only
    rw [byteAt_set_self hs3, drop_set_high (show 2 ≤ 3 + LEN by omega),
      take_set_high (show 1 + LEN ≤ 3 + LEN - 2 by omega)]
  · rfl
  · dsimp only
    rw [byteAt_set_ne (show 3 + LEN ≠ 1 by omega),
      byteAt_set_ne (show (2 : Nat) ≠ 1 by omega),
      byteAt_set_self hs1]
    omega

/-- Witness for C4: a packed-channels frame built from the repository's
test vector. -/
theorem simple_frame_layout_witness :
    ∃ p : RawPacket,
      Payload.to_raw_packet_with_sync 22 22
        (rc_channels_packed.RcChannelsPacked.encode
          (rc_channels_packed.RcChannelsPacked.mk
            983 992 174 992 191 191 191 191 997 997 997 997 0 0 1811 1811))
        CRSF_SYNC_BYTE = .ok p ∧
      byteAt p.buf 0 = CRSF_SYNC_BYTE ∧
      byteAt p.buf 1 = 2 + 22 ∧
      byteAt p.buf 2 = 22 ∧
      (∀ i, i < 22 → byteAt p.buf (3 + i) =
        byteAt (rc_channels_packed.ofBytes22 (rc_channels_packed.raw_encode
          (rc_channels_packed.RcChannelsPacked.mk
            983 992 174 992 191 191 191 191 997 997 997 997 0 0 1811 1811)) ++
          List.replicate 39 0) i) ∧
      byteAt p.buf (3 + 22) =
        Crc8.get_checksum (Crc8.compute Crc8.new ((p.buf.drop 2).take (1 + 22))) ∧
      p.len = 4 + 22 ∧
      p.len = 2 + byteAt p.buf 1 :=
  simple_frame_layout 22 22 CRSF_SYNC_BYTE
    (rc_channels_packed.RcChannelsPacked.encode
      (rc_channels_packed.RcChannelsPacked.mk
        983 992 174 992 191 191 191 191 997 997 997 997 0 0 1811 1811))
    (rc_channels_packed.ofBytes22 (rc_channels_packed.raw_encode
      (rc_channels_packed.RcChannelsPacked.mk
        983 992 174 992 191 191 191 191 997 997 997 997 0 0 1811 1811)) ++
      List.replicate 39 0)
    (by decide) rfl rfl

/-- C5: for every extended-framed payload whose encode succeeds, the
constructor produces a frame with byte 1 (the length field) `4 + LEN`,
byte 2 the type tag, byte 3 the destination address, byte 4 the source
address, the payload at bytes `5..5+LEN`, the CRC-8 over exactly bytes
`2..5+LEN` at offset `5+LEN`, and total occupancy `6 + LEN`. -/
theorem extended_frame_layout (LEN typ sync_byte dst src : Nat)
    (enc : List Nat → Except CrsfError (List Nat)) (w : List Nat)
    (hLEN : LEN ≤ 58)
    (henc : enc ((List.replicate CRSF_MAX_LEN 0).drop 5) = .ok w)
    (hw : w.length = CRSF_MAX_LEN - 5) :
    ∃ p : RawPacket,
      ExtendedPayload.to_raw_packet_with_sync LEN typ enc sync_byte dst src = .ok p ∧
      byteAt p.buf 0 = sync_byte ∧
      byteAt p.buf 1 = 4 + LEN ∧
      byteAt p.buf 2 = typ ∧
      byteAt p.buf 3 = dst ∧
      byteAt p.buf 4 = src ∧
      (∀ i, i < LEN → byteAt p.buf (5 + i) = byteAt w i) ∧
      byteAt p.buf (5 + LEN) =
        Crc8.get_checksum (Crc8.compute Crc8.new ((p.buf.drop 2).take (3 + LEN))) ∧
      p.len = 6 + LEN := by
  have hw59 : w.length = 59 := by
    simp only [CRSF_MAX_LEN] at hw
    omega
  simp only [CRSF_MAX_LEN] at henc
  simp only [ExtendedPayload.to_raw_packet_with_sync, CRSF_MAX_LEN, henc]
  have hlt : 5 + LEN < 64 := by omega
  have hle : 5 + LEN ≤ 64 := by omega
  rw [if_pos hlt, if_pos hle]
  have hB1 : (List.take 5 (List.replicate 64 (0 : Nat)) ++ w).length = 64 := by
    simp only [List.length_append, List.length_take, List.length_replicate, hw59]
    omega
  have hs0 : 0 < (List.take 5 (List.replicate 64 (0 : Nat)) ++ w).length := by
    omega
  have hs1 : 1 <
      ((List.take 5 (List.replicate 64 (0 : Nat)) ++ w).set 0 sync_byte).length := by
    rw [List.length_set]
    omega
  have hs2 : 2 <
      (((List.take 5 (List.replicate 64 (0 : Nat)) ++ w).set 0 sync_byte).set 1
        ((4 + LEN % 256) % 256)).length := by
    rw [List.length_set, List.length_set]
    omega
  have hs3 : 3 <
      ((((List.take 5 (List.replicate 64 (0 : Nat)) ++ w).set 0 sync_byte).set 1
        ((4 + LEN % 256) % 256)).set 2 typ).length := by
    rw [List.length_set, List.length_set, List.length_set]
    omega
  have hs4 : 4 <
      (((((List.take 5 (List.replicate 64 (0 : Nat)) ++ w).set 0 sync_byte).set 1
        ((4 + LEN % 256) % 256)).set 2 typ).set 3 dst).length := by
    rw [List.length_set, List.length_set, List.length_set, List.length_set]
    omega
  have hs5 : 5 + LEN <
      ((((((List.take 5 (List.replicate 64 (0 : Nat)) ++ w).set 0 sync_byte).set 1
        ((4 + LEN % 256) % 256)).set 2 typ).set 3 dst).set 4 src).length := by
    rw [List.length_set, List.length_set, List.length_set, List.length_set,
      List.length_set]
    omega
  have hlen5 : (List.take 5 (List.replicate 64 (0 : Nat))).length = 5 := by
    simp
  refine ⟨_, rfl, ?_, ?_, ?_, ?_, ?_, ?_, ?_, ?_⟩
  · dsimp only
    rw [byteAt_set_ne (show 5 + LEN ≠ 0 by omega),
      byteAt_set_ne (show (4 : Nat) ≠ 0 by omega),
      byteAt_set_ne (show (3 : Nat) ≠ 0 by omega),
      byteAt_set_ne (show (2 : Nat) ≠ 0 by omega),
      byteAt_set_ne (show (1 : Nat) ≠ 0 by omega),
      byteAt_set_self hs0]
  · dsimp only
    rw [byteAt_set_ne (show 5 + LEN ≠ 1 by omega),
      byteAt_set_ne (show (4 : Nat) ≠ 1 by omega),
      byteAt_set_ne (show (3 : Nat) ≠ 1 by omega),
      byteAt_set_ne (show (2 : Nat) ≠ 1 by omega),
      byteAt_set_self hs1]
    omega
  · dsimp only
    rw [byteAt_set_ne (show 5 + LEN ≠ 2 by omega),
      byteAt_set_ne (show (4 : Nat) ≠ 2 by omega),
      byteAt_set_ne (show (3 : Nat) ≠ 2 by omega),
      byteAt_set_self hs2]
  · dsimp only
    rw [byteAt_set_ne (show 5 + LEN ≠ 3 by omega),
      byteAt_set_ne (show (4 : Nat) ≠ 3 by omega),
      byteAt_set_self hs3]
  · dsimp only
    rw [byteAt_set_ne (show 5 + LEN ≠ 4 by omega),
      byteAt_set_self hs4]
  · intro i hi
    dsimp only
    rw [byteAt_set_ne (show 5 + LEN ≠ 5 + i by omega),
      byteAt_set_ne (show (4 : Nat) ≠ 5 + i by omega),
      byteAt_set_ne (show (3 : Nat) ≠ 5 + i by omega),
      byteAt_set_ne (show (2 : Nat) ≠ 5 + i by omega),
      byteAt_set_ne (show (1 : Nat) ≠ 5 + i by omega),
      byteAt_set_ne (show (0 : Nat) ≠ 5 + i by omega),
      byteAt_append_right (by rw [hlen5]; omega), hlen5]
    congr 1
    omega
  · dsimp only
    rw [byteAt_set_self hs5, drop_set_high (show 2 ≤ 5 + LEN by omega),
      take_set_high (show 3 + LEN ≤ 5 + LEN - 2 by omega)]
  · rfl

/-- Witness for C5: a ParameterRead frame with field 5, chunk 9. -/
theorem extended_frame_layout_witness :
    ∃ p : RawPacket,
      ExtendedPayload.to_raw_packet_with_sync 2 44
        (parameter_read.ParameterRead.encode (parameter_read.ParameterRead.mk 5 9))
        CRSF_SYNC_BYTE 200 238 = .ok p ∧
      byteAt p.buf 0 = CRSF_SYNC_BYTE ∧
      byteAt p.buf 1 = 4 + 2 ∧
      byteAt p.buf 2 = 44 ∧
      byteAt p.buf 3 = 200 ∧
      byteAt p.buf 4 = 238 ∧
      (∀ i, i < 2 → byteAt p.buf (5 + i) =
        byteAt (5 :: 9 :: List.replicate 57 0) i) ∧
      byteAt p.buf (5 + 2) =
        Crc8.get_checksum (Crc8.compute Crc8.new ((p.buf.drop 2).take (3 + 2))) ∧
      p.len = 6 + 2 :=
  extended_frame_layout 2 44 CRSF_SYNC_BYTE 200 238
    (parameter_read.ParameterRead.encode (parameter_read.ParameterRead.mk 5 9))
    (5 :: 9 :: List.replicate 57 0)
    (by decide) rfl rfl

/-- Changing the sync byte of a simple frame only rewrites byte 0: the
constructor at sync `s2` returns the `s2`-frame obtained from the
`s1`-frame by setting byte 0. -/
theorem to_raw_simple_sync_set (LEN typ s1 s2 : Nat)
    (enc : List Nat → Except CrsfError (List Nat)) :
    Payload.to_raw_packet_with_sync LEN typ enc s2 =
      Except.map (fun p => RawPacket.mk (p.buf.set 0 s2) p.len)
        (Payload.to_raw_packet_with_sync LEN typ enc s1) := by
  cases henc : enc ((List.replicate CRSF_MAX_LEN 0).drop 3) with
  | error e => simp only [Payload.to_raw_packet_with_sync, henc, Except.map]
  | ok w =>
    simp only [Payload.to_raw_packet_with_sync, henc, Except.map]
    congr 1
    have hB2 : (((List.take 3 (List.replicate CRSF_MAX_LEN 0) ++ w).set 0 s2).set 1
          ((2 + LEN % 256) % 256)).set 2 typ =
        ((((List.take 3 (List.replicate CRSF_MAX_LEN 0) ++ w).set 0 s1).set 1
          ((2 + LEN % 256) % 256)).set 2 typ).set 0 s2 := by
      rw [List.set_comm _ _ _ (show (2 : Nat) ≠ 0 by omega),
        List.set_comm _ _ _ (show (1 : Nat) ≠ 0 by omega),
        List.set_set]
    by_cases hc : 3 + LEN < CRSF_MAX_LEN
    · rw [if_pos hc, if_pos hc, hB2, drop_set_low (show 0 < 2 by omega),
        List.set_comm _ _ _ (show (0 : Nat) ≠ 3 + LEN by omega)]
    · rw [if_neg hc, if_neg hc, hB2]

/-- Changing the sync byte of an extended frame only rewrites byte 0. -/
theorem to_raw_extended_sync_set (LEN typ s1 s2 dst src : Nat)
    (enc : List Nat → Except CrsfError (List Nat)) :
    ExtendedPayload.to_raw_packet_with_sync LEN typ enc s2 dst src =
      Except.map (fun p => RawPacket.mk (p.buf.set 0 s2) p.len)
        (ExtendedPayload.to_raw_packet_with_sync LEN typ enc s1 dst src) := by
  cases henc : enc ((List.replicate CRSF_MAX_LEN 0).drop 5) with
  | error e => simp only [ExtendedPayload.to_raw_packet_with_sync, henc, Except.map]
  | ok w =>
    simp only [ExtendedPayload.to_raw_packet_with_sync, henc, Except.map]
    congr 1
    have hB2 : (((((List.take 5 (List.replicate CRSF_MAX_LEN 0) ++ w).set 0 s2).set 1
          ((4 + LEN % 256) % 256)).set 2 typ).set 3 dst).set 4 src =
        ((((((List.take 5 (List.replicate CRSF_MAX_LEN 0) ++ w).set 0 s1).set 1
          ((4 + LEN % 256) % 256)).set 2 typ).set 3 dst).set 4 src).set 0 s2 := by
      rw [List.set_comm _ _ _ (show (4 : Nat) ≠ 0 by omega),
        List.set_comm _ _ _ (show (3 : Nat) ≠ 0 by omega),
        List.set_comm _ _ _ (show (2 : Nat) ≠ 0 by omega),
        List.set_comm _ _ _ (show (1 : Nat) ≠ 0 by omega),
        List.set_set]
    by_cases hc : 5 + LEN < CRSF_MAX_LEN
    · rw [if_pos hc, if_pos hc, hB2, drop_set_low (show 0 < 2 by omega),
        List.set_comm _ _ _ (show (0 : Nat) ≠ 5 + LEN by omega)]
    · rw [if_neg hc, if_neg hc, hB2]

/-- C6: for every payload (generic encoder) and every pair of sync bytes,
the frames produced by the two constructors at `s1` and `s2` have the same
occupancy and are identical at every byte position except byte 0 — in
particular the trailing checksum byte is identical, for both the simple
and the extended framing (and when construction fails, it fails for both
sync bytes). -/
theorem sync_byte_invariance (LEN typ s1 s2 dst src : Nat)
    (enc : List Nat → Except CrsfError (List Nat)) :
    ((Payload.to_raw_packet_with_sync LEN typ enc s1).toOption.map RawPacket.len =
      (Payload.to_raw_packet_with_sync LEN typ enc s2).toOption.map RawPacket.len) ∧
    (∀ i, i ≠ 0 →
      (Payload.to_raw_packet_with_sync LEN typ enc s1).toOption.map
        (fun p => byteAt p.buf i) =
      (Payload.to_raw_packet_with_sync LEN typ enc s2).toOption.map
        (fun p => byteAt p.buf i)) ∧
    ((ExtendedPayload.to_raw_packet_with_sync LEN typ enc s1 dst src).toOption.map
        RawPacket.len =
      (ExtendedPayload.to_raw_packet_with_sync LEN typ enc s2 dst src).toOption.map
        RawPacket.len) ∧
    (∀ i, i ≠ 0 →
      (ExtendedPayload.to_raw_packet_with_sync LEN typ enc s1 dst src).toOption.map
        (fun p => byteAt p.buf i) =
      (ExtendedPayload.to_raw_packet_with_sync LEN typ enc s2 dst src).toOption.map
        (fun p => byteAt p.buf i)) := by
  refine ⟨?_, ?_, ?_, ?_⟩
  · rw [to_raw_simple_sync_set LEN typ s1 s2 enc]
    cases Payload.to_raw_packet_with_sync LEN typ enc s1 with
    | error e => rfl
    | ok p => rfl
  · intro i hi
    rw [to_raw_simple_sync_set LEN typ s1 s2 enc]
    cases Payload.to_raw_packet_with_sync LEN typ enc s1 with
    | error e => rfl
    | ok p =>
      simp only [Except.map, Except.toOption, Option.map]
      rw [byteAt_set_ne (show 0 ≠ i by omega)]
  · rw [to_raw_extended_sync_set LEN typ s1 s2 dst src enc]
    cases ExtendedPayload.to_raw_packet_with_sync LEN typ enc s1 dst src with
    | error e => rfl
    | ok p => rfl
  · intro i hi
    rw [to_raw_extended_sync_set LEN typ s1 s2 dst src enc]
    cases ExtendedPayload.to_raw_packet_with_sync LEN typ enc s1 dst src with
    | error e => rfl
    | ok p =>
      simp only [Except.map, Except.toOption, Option.map]
      rw [byteAt_set_ne (show 0 ≠ i by omega)]

/-- Witness for C6: the length-field byte (index 1, which includes no sync
contribution) of a packed-channels frame agrees across two sync bytes. -/
theorem sync_byte_invariance_witness :
    (Payload.to_raw_packet_with_sync 22 22
      (rc_channels_packed.RcChannelsPacked.encode
        (rc_channels_packed.RcChannelsPacked.mk
          983 992 174 992 191 191 191 191 997 997 997 997 0 0 1811 1811))
      200).toOption.map (fun p => byteAt p.buf 1) =
    (Payload.to_raw_packet_with_sync 22 22
      (rc_channels_packed.RcChannelsPacked.encode
        (rc_channels_packed.RcChannelsPacked.mk
          983 992 174 992 191 191 191 191 997 997 997 997 0 0 1811 1811))
      238).toOption.map (fun p => byteAt p.buf 1) :=
  (sync_byte_invariance 22 22 200 238 10 20
    (rc_channels_packed.RcChannelsPacked.encode
      (rc_channels_packed.RcChannelsPacked.mk
        983 992 174 992 191 191 191 191 997 997 997 997 0 0 1811 1811))).2.1
    1 (by omega)

end Crsf
